import Mathlib

/-!
Shallow embedding of the ticket-selling web application (app.py): the JSON
payload model, the Python dynamic-typing primitives the webhook handler relies
on, the SQLite-backed ticket store, the sequencer and code formatter, and the
`/webhook` route handler, together with proofs of the specified properties.
-/

namespace TicketApp

/-- JSON values as delivered by `request.get_json` (numbers modelled as
integers; payment ids are integers or strings in every notification). -/
inductive Json where
  | null
  | bool (b : Bool)
  | num (n : Int)
  | str (s : String)
  | arr (elems : List Json)
  | obj (fields : List (String × Json))
deriving Repr

/-- Lookup of a key in a JSON object's field list (Python dict access). -/
def jLookup (fields : List (String × Json)) (k : String) : Option Json :=
  (fields.find? (fun kv => kv.1 = k)).map (fun kv => kv.2)

/-- Test whether a JSON value is the string `k` (Python `v == k` against a
string literal: values of any other type never compare equal). -/
def jIsStr (v : Json) (k : String) : Bool :=
  match v with
  | .str s => s = k
  | _ => false

/-- Test whether a JSON value is an object (Python `isinstance(v, dict)`). -/
def jIsObj (v : Json) : Bool :=
  match v with
  | .obj _ => true
  | _ => false

/-- Whether `nd` is a prefix of the second list. -/
def matchesAt (nd : List Char) : List Char → Bool
  | hs =>
    match nd, hs with
    | [], _ => true
    | _ :: _, [] => false
    | c :: cs, h :: hs2 => c = h && matchesAt cs hs2

/-- Whether `nd` occurs in the second list at some offset. -/
def containsAux (nd : List Char) : List Char → Bool
  | [] => nd.isEmpty
  | h :: hs => matchesAt nd (h :: hs) || containsAux nd hs

/-- Substring test, Python `needle in haystack` on strings (the empty needle
is contained in every string). -/
def strContains (needle hay : String) : Bool :=
  containsAux needle.data hay.data

/-- Python `k in v` for a JSON value: key test on dicts, substring test on
strings, membership on lists; `TypeError` (modelled as `.error`) otherwise. -/
def jContains (v : Json) (k : String) : Except Unit Bool :=
  match v with
  | .obj fs => .ok (jLookup fs k).isSome
  | .str s => .ok (strContains k s)
  | .arr xs => .ok (xs.any (fun e => jIsStr e k))
  | _ => .error ()

/-- Python `v[k]` with a string key: dict lookup (`KeyError` when absent);
`TypeError` on any non-dict value. -/
def jGet (v : Json) (k : String) : Except Unit Json :=
  match v with
  | .obj fs =>
    match jLookup fs k with
    | some w => .ok w
    | none => .error ()
  | _ => .error ()

/-- Python truthiness of a JSON value. -/
def jTruthy (v : Json) : Bool :=
  match v with
  | .null => false
  | .bool b => b
  | .num n => n ≠ 0
  | .str s => s ≠ ""
  | .arr xs => ¬ xs.isEmpty
  | .obj fs => ¬ fs.isEmpty

/-- Decimal digits of `n`, least significant first, with explicit structural
fuel (`decDigitsAux n n` is exact, see `decDigitsAux_eq_digits`). -/
def decDigitsAux : Nat → Nat → List Nat
  | _, 0 => []
  | 0, _ + 1 => []
  | fuel + 1, n + 1 => ((n + 1) % 10) :: decDigitsAux fuel ((n + 1) / 10)

/-- Decimal rendering of a natural number as a list of characters, most
significant digit first (Python `str` / `%d` on a non-negative int). -/
def decChars (n : Nat) : List Char :=
  if n = 0 then ['0'] else ((decDigitsAux n n).map Nat.digitChar).reverse

/-- Decimal rendering of a natural number (Python `str(n)` for `n >= 0`). -/
def decRepr (n : Nat) : String :=
  String.mk (decChars n)

/-- Decimal rendering of an integer (Python `str` on an int). -/
def intRepr (n : Int) : String :=
  if n < 0 then "-" ++ decRepr n.natAbs else decRepr n.toNat

/-- Single-quote character, used by Python `repr` of strings. -/
def sq : String := String.singleton (Char.ofNat 39)

mutual

/-- Python `repr` of a JSON value; only reached by `str()` of list/dict
payment ids. -/
def pyRepr : Json → String
  | .null => "None"
  | .bool b => if b then "True" else "False"
  | .num n => intRepr n
  | .str s => sq ++ s ++ sq
  | .arr xs => "[" ++ pyReprList xs ++ "]"
  | .obj fs => "\x7b" ++ pyReprFields fs ++ "\x7d"

/-- Comma-separated `repr`s of the elements of a Python list. -/
def pyReprList : List Json → String
  | [] => ""
  | [x] => pyRepr x
  | x :: y :: xs => pyRepr x ++ ", " ++ pyReprList (y :: xs)

/-- Comma-separated `repr`s of the entries of a Python dict. -/
def pyReprFields : List (String × Json) → String
  | [] => ""
  | [(k, v)] => sq ++ k ++ sq ++ ": " ++ pyRepr v
  | (k, v) :: kv :: xs => sq ++ k ++ sq ++ ": " ++ pyRepr v ++ ", " ++ pyReprFields (kv :: xs)

end

/-- Python `str()` of a JSON value, as applied to the extracted payment id. -/
def pyStr (v : Json) : String :=
  match v with
  | .null => "None"
  | .bool b => if b then "True" else "False"
  | .num n => intRepr n
  | .str s => s
  | .arr xs => pyRepr (.arr xs)
  | .obj fs => pyRepr (.obj fs)

/-- Ticket code prefix: `PREFIX = os.getenv("INGRESSO_PREFIX", "LUAL")`,
modelled at its default value. -/
def prefixCode : String := "LUAL"

/-- Decimal digit characters of a natural number left-padded with zeros to a
minimum width of `w`. -/
def padChars (w n : Nat) : List Char :=
  List.replicate (w - (decChars n).length) '0' ++ decChars n

/-- Python `f"\x7bseq:04d\x7d"`: decimal rendering left-padded with zeros to a
minimum total width of 4 (a negative number's sign counts toward the width). -/
def pyFormat04d (n : Int) : String :=
  if n < 0 then
    "-" ++ String.mk (padChars 3 n.natAbs)
  else
    String.mk (padChars 4 n.toNat)

/-- Source `format_code(seq)`: `f"\x7bPREFIX\x7d\x7bseq:04d\x7d"`. -/
def format_code (seq : Int) : String :=
  prefixCode ++ pyFormat04d seq

/-- One row of the `ingressos` table. `mp_payment_id` is the only nullable
column; `id` (autoincrement surrogate key) is the row's list position. -/
structure Ticket where
  evento : String
  seq : Int
  codigo : String
  comprador_email : String
  status : String
  mp_payment_id : Option String
  created_at : String
deriving DecidableEq, Repr

/-- Database state: the rows of `ingressos` in insertion (= `id`) order. -/
abbrev Store := List Ticket

/-- Source `INSERT INTO ingressos ...` under the table's constraints: the only
UNIQUE column is `codigo`, so the insert raises (sqlite3.IntegrityError,
modelled as `.error`) exactly when the new `codigo` already occurs. -/
def insertTicket (db : Store) (t : Ticket) : Except Unit Store :=
  if db.any (fun r => r.codigo = t.codigo) then .error () else .ok (db ++ [t])

/-- Source `SELECT MAX(seq) FROM ingressos` with `NULL` (empty table) read
as 0. -/
def max_seq (db : Store) : Int :=
  match db with
  | [] => 0
  | t :: ts => ts.foldl (fun a r => max a r.seq) t.seq

/-- Source `next_seq()`: `maxseq + 1`. -/
def next_seq (db : Store) : Int :=
  max_seq db + 1

/-- Number of rows holding a given non-null `mp_payment_id`. -/
def countKey (k : String) (db : Store) : Nat :=
  (db.filter (fun r => r.mp_payment_id = some k)).length

/-- Gateway response at the Payment Gateway Adapter boundary (section 4.4 of
the design): `payment_info.get("status")`, `payment_info.get("payer", \x7b\x7d).get("email")`
and `payment_info.get("payer_email")`. -/
structure PaymentInfo where
  status : Option String
  payerEmail : Option String
  payerEmailAlt : Option String
deriving DecidableEq, Repr

/-- Environment of one webhook invocation: SDK availability, the gateway
lookup (`None` models a raised lookup error), whether the artifact stamping is
attempted and succeeds (`none` = PIL or base image missing, `some b` =
attempted with outcome `b`), whether `mail.send` succeeds, and the clock. -/
structure Env where
  sdkAvailable : Bool
  gateway : Json → Option PaymentInfo
  artifact : Option Bool
  emailOk : Bool
  now : String

/-- One `POST /webhook` request: parsed JSON body (`none` = unparsable) and
the `topic` / `id` query parameters. -/
structure Req where
  body : Option Json
  argsTopic : Option String
  argsId : Option String

/-- Observable side effects of one webhook invocation, in program order. -/
inductive Effect where
  | artifactAttempt (codigo : String)
  | artifactWritten (codigo : String)
  | insertRow (t : Ticket)
  | emailAttempt (addr : String) (codigo : String)
  | emailSent (addr : String) (codigo : String)
deriving DecidableEq, Repr

/-- Result of one webhook invocation: the HTTP response (`none` models an
exception escaping the handler, which Flask turns into a 500), the final
database state, and the ordered side effects. -/
structure WebhookResult where
  response : Option (String × Nat)
  db : Store
  effects : List Effect
deriving DecidableEq, Repr

/-- Source `payload = request.get_json(force=True, silent=True) or \x7b\x7d`. -/
def effPayload (body : Option Json) : Json :=
  match body with
  | none => .obj []
  | some j => if jTruthy j then j else .obj []

/-- Truthiness of `request.args.get("id")` (an optional string). -/
def optStrTruthy (o : Option String) : Bool :=
  match o with
  | some s => s ≠ ""
  | none => false

/-- Payment-id extraction, lines 192-204 of app.py, inside the `try`: the
`if`/`elif` chain with Python evaluation order and short-circuiting; any
raised `TypeError`/`KeyError` aborts the chain (`.error`). -/
def extractExc (p : Json) (aT aI : Option String) : Except Unit (Option Json) := do
  let c1 ← (do
    if (← jContains p "type") then
      if jIsStr (← jGet p "type") "payment" then
        if (← jContains p "data") then
          jContains (← jGet p "data") "id"
        else pure false
      else pure false
    else pure false)
  if c1 then
    let d ← jGet p "data"
    let i ← jGet d "id"
    pure (some i)
  else
    let c2 ← (do
      if (← jContains p "topic") then
        if jIsStr (← jGet p "topic") "payment" then
          jContains p "id"
        else pure false
      else pure false)
    if c2 then
      pure (some (← jGet p "id"))
    else
      let c3 ← (do
        if (← jContains p "data") then
          let d ← jGet p "data"
          if jIsObj d then jContains d "id" else pure false
        else pure false)
      if c3 then
        let d ← jGet p "data"
        pure (some (← jGet d "id"))
      else
        if aT = some "payment" ∧ optStrTruthy aI then
          pure (some (.str (aI.getD "")))
        else
          pure none

/-- Payment-id extraction with the surrounding `except Exception:
payment_id = None`. -/
def extractPaymentId (p : Json) (aT aI : Option String) : Option Json :=
  match extractExc p aT aI with
  | .ok v => v
  | .error _ => none

/-- Lower-casing of a status string, Python `status.lower()` (the gateway's
status values are ASCII enum strings). -/
def strLower (s : String) : String :=
  String.mk (s.data.map Char.toLower)

/-- Source `if status and status.lower() == "approved"`. -/
def isApproved (status : Option String) : Bool :=
  match status with
  | some s => s ≠ "" && strLower s == "approved"
  | none => false

/-- Source line 225: `payer.get("email") or payment_info.get("payer_email")
or "sem-email@local"` (Python `or`: an empty string falls through). -/
def resolveEmail (payerEmail payerEmailAlt : Option String) : String :=
  match payerEmail with
  | some s => if s = "" then (match payerEmailAlt with
      | some t => if t = "" then "sem-email@local" else t
      | none => "sem-email@local") else s
  | none =>
    match payerEmailAlt with
    | some t => if t = "" then "sem-email@local" else t
    | none => "sem-email@local"

/-- Effects of the best-effort artifact stamping (lines 241-273), which runs
before the insert. -/
def artifactEffects (art : Option Bool) (codigo : String) : List Effect :=
  match art with
  | none => []
  | some true => [.artifactAttempt codigo, .artifactWritten codigo]
  | some false => [.artifactAttempt codigo]

/-- Effects of the best-effort email send (lines 284-299), inside its own
`try`/`except`. -/
def emailEffects (ok : Bool) (addr codigo : String) : List Effect :=
  [.emailAttempt addr codigo] ++ if ok then [.emailSent addr codigo] else []

/-- Webhook result for the paths that only acknowledge: `return "OK", 200`
with the store untouched and no side effects. -/
def noopResult (db : Store) : WebhookResult :=
  ⟨some ("OK", 200), db, []⟩

/-- The row the handler builds for payment key `key` against store state `db`
(lines 237-239 and 276-279): event hardcoded, `seq = next_seq()`,
`codigo = format_code(seq)`, status literal `"pago"`. -/
def newRow (db : Store) (key email now : String) : Ticket :=
  ⟨"Lual na Praia", next_seq db, format_code (next_seq db), email, "pago", some key, now⟩

/-- Issuance (lines 237-299): compute `seq` and `codigo`, best-effort stamp
the artifact, insert the row (an IntegrityError escapes the handler:
`response = none`), then best-effort send the email. -/
def issueTicket (env : Env) (db : Store) (key email : String) : WebhookResult :=
  match insertTicket db (newRow db key email env.now) with
  | .error _ => ⟨none, db, artifactEffects env.artifact (format_code (next_seq db))⟩
  | .ok db2 =>
    ⟨some ("OK", 200), db2,
      artifactEffects env.artifact (format_code (next_seq db)) ++
        [.insertRow (newRow db key email env.now)] ++
        emailEffects env.emailOk email (format_code (next_seq db))⟩

/-- Approved-payment processing (lines 223-300): status gate, idempotency
lookup by `mp_payment_id = str(payment_id)`, then issuance. -/
def processPayment (env : Env) (db : Store) (pid : Json) (info : PaymentInfo) :
    WebhookResult :=
  if isApproved info.status then
    match db.find? (fun r => r.mp_payment_id = some (pyStr pid)) with
    | some _ => noopResult db
    | none =>
      issueTicket env db (pyStr pid) (resolveEmail info.payerEmail info.payerEmailAlt)
  else noopResult db

/-- Source `webhook()` (lines 187-300): payload normalization, payment-id
extraction, truthiness gate, SDK gate, gateway lookup (a raised lookup error
acknowledges OK), then approved-payment processing. -/
def webhook (env : Env) (db : Store) (req : Req) : WebhookResult :=
  match extractPaymentId (effPayload req.body) req.argsTopic req.argsId with
  | none => noopResult db
  | some pid =>
    if jTruthy pid then
      if env.sdkAvailable then
        match env.gateway pid with
        | none => noopResult db
        | some info => processPayment env db pid info
      else noopResult db
    else noopResult db

/-! Lemmas about the decimal rendering. -/

theorem decDigitsAux_eq_digits : ∀ (fuel n : Nat), n ≤ fuel →
    decDigitsAux fuel n = Nat.digits 10 n := by
  intro fuel
  induction fuel with
  | zero =>
    intro n hn
    have h0 : n = 0 := Nat.le_zero.mp hn
    subst h0
    simp [decDigitsAux]
  | succ f ih =>
    intro n hn
    match n with
    | 0 => simp [decDigitsAux]
    | m + 1 =>
      rw [decDigitsAux, Nat.digits_def' (by norm_num : (1:Nat) < 10) (Nat.succ_pos m)]
      congr 1
      have hlt : (m + 1) / 10 < m + 1 := Nat.div_lt_self (Nat.succ_pos m) (by norm_num)
      exact ih _ (by omega)

theorem decChars_eq_digits (n : Nat) (hn : n ≠ 0) :
    decChars n = ((Nat.digits 10 n).map Nat.digitChar).reverse := by
  unfold decChars
  rw [if_neg hn, decDigitsAux_eq_digits n n le_rfl]

theorem decChars_ne_nil (n : Nat) : decChars n ≠ [] := by
  by_cases hn : n = 0
  · subst hn; simp [decChars]
  · rw [decChars_eq_digits n hn]
    simp [Nat.digits_ne_nil_iff_ne_zero.mpr hn]

theorem digitChar_ne_zero_char : ∀ d : Nat, d < 10 → d ≠ 0 →
    Nat.digitChar d ≠ '0' := by decide

theorem digitChar_inj_lt : ∀ a : Nat, a < 10 → ∀ b : Nat, b < 10 →
    Nat.digitChar a = Nat.digitChar b → a = b := by decide

theorem decChars_head_ne_zero (n : Nat) (hn : n ≠ 0) (c : Char)
    (hc : (decChars n).head? = some c) : c ≠ '0' := by
  rw [decChars_eq_digits n hn, List.head?_reverse, List.getLast?_map] at hc
  have hne : Nat.digits 10 n ≠ [] := Nat.digits_ne_nil_iff_ne_zero.mpr hn
  rw [List.getLast?_eq_getLast _ hne] at hc
  simp only [Option.map_some', Option.some.injEq] at hc
  have hmem : (Nat.digits 10 n).getLast hne ∈ Nat.digits 10 n := List.getLast_mem hne
  have hlt : (Nat.digits 10 n).getLast hne < 10 :=
    Nat.digits_lt_base (by norm_num) hmem
  have hnz : (Nat.digits 10 n).getLast hne ≠ 0 := Nat.getLast_digit_ne_zero 10 hn
  rw [← hc]
  exact digitChar_ne_zero_char _ hlt hnz

theorem map_digitChar_inj : ∀ (l1 l2 : List Nat), (∀ x ∈ l1, x < 10) →
    (∀ x ∈ l2, x < 10) → l1.map Nat.digitChar = l2.map Nat.digitChar → l1 = l2 := by
  intro l1
  induction l1 with
  | nil => intro l2 _ _ h; cases l2 <;> simp_all
  | cons a l ih =>
    intro l2 h1 h2 h
    cases l2 with
    | nil => simp_all
    | cons b l2t =>
      simp only [List.map_cons, List.cons.injEq] at h
      have ha : a = b :=
        digitChar_inj_lt a (h1 a (by simp)) b (h2 b (by simp)) h.1
      have hl : l = l2t :=
        ih l2t (fun x hx => h1 x (by simp [hx])) (fun x hx => h2 x (by simp [hx])) h.2
      rw [ha, hl]

theorem decChars_inj (m n : Nat) (h : decChars m = decChars n) : m = n := by
  by_cases hm : m = 0
  · by_cases hn : n = 0
    · omega
    · exfalso
      subst hm
      have hh : (decChars n).head? = some '0' := by rw [← h]; simp [decChars]
      exact decChars_head_ne_zero n hn '0' hh rfl
  · by_cases hn : n = 0
    · exfalso
      subst hn
      have hh : (decChars m).head? = some '0' := by rw [h]; simp [decChars]
      exact decChars_head_ne_zero m hm '0' hh rfl
    · rw [decChars_eq_digits m hm, decChars_eq_digits n hn] at h
      have h2 := List.reverse_injective h
      have h3 : Nat.digits 10 m = Nat.digits 10 n :=
        map_digitChar_inj _ _ (fun x hx => Nat.digits_lt_base (by norm_num) hx)
          (fun x hx => Nat.digits_lt_base (by norm_num) hx) h2
      have h4 := congrArg (Nat.ofDigits 10) h3
      rwa [Nat.ofDigits_digits, Nat.ofDigits_digits] at h4

theorem padChars_aux (w m n a b : Nat) (ha : a ≤ b)
    (hm : padChars w m = List.replicate a '0' ++ decChars m)
    (hn : padChars w n = List.replicate b '0' ++ decChars n)
    (h : padChars w m = padChars w n) : m = n := by
  rw [hm, hn] at h
  rcases Nat.lt_or_ge a b with hab | hab
  · exfalso
    have hb : b = a + (b - a) := by omega
    rw [hb, List.replicate_add, List.append_assoc] at h
    have h2 : decChars m = List.replicate (b - a) '0' ++ decChars n :=
      List.append_cancel_left h
    have hba : 0 < b - a := by omega
    have hh : (decChars m).head? = some '0' := by
      rw [h2]
      cases hk : b - a with
      | zero => omega
      | succ k => simp [List.replicate_succ]
    by_cases hm0 : m = 0
    · subst hm0
      have : decChars 0 = ['0'] := by simp [decChars]
      rw [this] at h2
      have hlen := congrArg List.length h2
      simp at hlen
      have := decChars_ne_nil n
      have : 1 ≤ (decChars n).length := by
        cases hcn : decChars n with
        | nil => exact absurd hcn (decChars_ne_nil n)
        | cons c cs => simp
      omega
    · exact absurd hh.symm (fun hc => decChars_head_ne_zero m hm0 '0' hh rfl)
  · have hab2 : a = b := by omega
    subst hab2
    exact decChars_inj m n (List.append_cancel_left h)

theorem padChars_inj (w m n : Nat) (h : padChars w m = padChars w n) : m = n := by
  rcases Nat.le_total (w - (decChars m).length) (w - (decChars n).length) with hle | hle
  · exact padChars_aux w m n _ _ hle rfl rfl h
  · exact (padChars_aux w n m _ _ hle rfl rfl h.symm).symm

theorem format_code_inj_nonneg (a b : Int) (ha : 0 ≤ a) (hb : 0 ≤ b)
    (h : format_code a = format_code b) : a = b := by
  unfold format_code pyFormat04d at h
  rw [if_neg (by omega), if_neg (by omega)] at h
  have hd := congrArg String.data h
  simp only [String.data_append] at hd
  have h2 : padChars 4 a.toNat = padChars 4 b.toNat := List.append_cancel_left hd
  have := padChars_inj 4 _ _ h2
  omega

/-! Lemmas about the sequencer. -/

theorem le_foldl_max (l : List Ticket) : ∀ i : Int,
    i ≤ l.foldl (fun a r => max a r.seq) i := by
  induction l with
  | nil => intro i; simp
  | cons t ts ih =>
    intro i
    calc i ≤ max i t.seq := le_max_left _ _
    _ ≤ ts.foldl (fun a r => max a r.seq) (max i t.seq) := ih _

theorem mem_le_foldl_max (l : List Ticket) : ∀ (i : Int) (r : Ticket), r ∈ l →
    r.seq ≤ l.foldl (fun a r => max a r.seq) i := by
  induction l with
  | nil => intro i r hr; cases hr
  | cons t ts ih =>
    intro i r hr
    rcases List.mem_cons.mp hr with h | h
    · subst h
      calc r.seq ≤ max i r.seq := le_max_right _ _
      _ ≤ ts.foldl (fun a r => max a r.seq) (max i r.seq) := le_foldl_max ts _
    · exact ih _ r h

theorem foldl_max_cases (l : List Ticket) : ∀ i : Int,
    l.foldl (fun a r => max a r.seq) i = i ∨
    ∃ r ∈ l, l.foldl (fun a r => max a r.seq) i = r.seq := by
  induction l with
  | nil => intro i; left; rfl
  | cons t ts ih =>
    intro i
    rcases ih (max i t.seq) with h | ⟨r, hr, h⟩
    · rcases max_cases i t.seq with ⟨hm, _⟩ | ⟨hm, _⟩
      · left; simp only [List.foldl_cons]; rw [h, hm]
      · right; exact ⟨t, by simp, by simp only [List.foldl_cons]; rw [h, hm]⟩
    · right; exact ⟨r, by simp [hr], by simp only [List.foldl_cons]; exact h⟩

theorem mem_le_max_seq (db : Store) (r : Ticket) (hr : r ∈ db) :
    r.seq ≤ max_seq db := by
  cases db with
  | nil => cases hr
  | cons t ts =>
    unfold max_seq
    rcases List.mem_cons.mp hr with h | h
    · subst h; exact le_foldl_max ts _
    · exact mem_le_foldl_max ts _ r h

theorem max_seq_mem (db : Store) (hdb : db ≠ []) :
    ∃ r ∈ db, max_seq db = r.seq := by
  cases db with
  | nil => exact absurd rfl hdb
  | cons t ts =>
    unfold max_seq
    rcases foldl_max_cases ts t.seq with h | ⟨r, hr, h⟩
    · exact ⟨t, by simp, h⟩
    · exact ⟨r, by simp [hr], h⟩

theorem lt_next_seq (db : Store) (r : Ticket) (hr : r ∈ db) :
    r.seq < next_seq db := by
  have := mem_le_max_seq db r hr
  unfold next_seq
  omega

/-! Structural lemmas about the webhook handler. -/

theorem insertTicket_ok (db : Store) (t : Ticket) (db2 : Store)
    (h : insertTicket db t = .ok db2) : db2 = db ++ [t] := by
  unfold insertTicket at h
  split at h
  · cases h
  · cases h; rfl

theorem insertTicket_fresh (db : Store) (t : Ticket)
    (h : ∀ r ∈ db, r.codigo ≠ t.codigo) : insertTicket db t = .ok (db ++ [t]) := by
  unfold insertTicket
  rw [if_neg]
  simp only [List.any_eq_true, decide_eq_true_eq, not_exists]
  intro r hr
  exact h r hr.1 hr.2

theorem webhook_eq_gateway (env : Env) (db : Store) (req : Req) (pid : Json)
    (hex : extractPaymentId (effPayload req.body) req.argsTopic req.argsId = some pid)
    (ht : jTruthy pid = true) (hsdk : env.sdkAvailable = true) :
    webhook env db req =
      match env.gateway pid with
      | none => noopResult db
      | some info => processPayment env db pid info := by
  unfold webhook
  rw [hex]
  simp [ht, hsdk]

theorem webhook_eq_process (env : Env) (db : Store) (req : Req) (pid : Json)
    (info : PaymentInfo)
    (hex : extractPaymentId (effPayload req.body) req.argsTopic req.argsId = some pid)
    (ht : jTruthy pid = true) (hsdk : env.sdkAvailable = true)
    (hgw : env.gateway pid = some info) :
    webhook env db req = processPayment env db pid info := by
  unfold webhook
  rw [hex]
  simp [ht, hsdk, hgw]

theorem webhook_db_cases (env : Env) (db : Store) (req : Req) :
    (webhook env db req).db = db ∨
    ∃ pid email,
      (extractPaymentId (effPayload req.body) req.argsTopic req.argsId = some pid ∧
      List.find? (fun r => r.mp_payment_id = some (pyStr pid)) db = none ∧
      (webhook env db req).db = db ++ [newRow db (pyStr pid) email env.now]) := by
  unfold webhook
  split
  · left; rfl
  · rename_i pid hex
    split
    · split
      · split
        · left; rfl
        · rename_i info _
          unfold processPayment
          split
          · split
            · left; rfl
            · rename_i hfind
              unfold issueTicket
              split
              · left; rfl
              · rename_i db2 hins
                right
                refine ⟨pid, resolveEmail info.payerEmail info.payerEmailAlt, hex, hfind, ?_⟩
                simp only
                exact insertTicket_ok _ _ _ hins
          · left; rfl
      · left; rfl
    · left; rfl

/-! The store invariant maintained by webhook processing. -/

/-- Invariant on the persistent store: every row's `seq` is at least 1 and
its `codigo` is the formatted rendering of its `seq`; non-null payment
references are pairwise distinct. -/
def StoreInv (db : Store) : Prop :=
  (∀ r ∈ db, 1 ≤ r.seq ∧ r.codigo = format_code r.seq) ∧
  List.Pairwise (fun a b => ∀ k, a.mp_payment_id = some k → b.mp_payment_id ≠ some k) db

/-- Store states reachable from the empty table through webhook deliveries
(with arbitrary payloads, query strings, gateway behavior and best-effort
outcomes). -/
inductive Reachable : Store → Prop where
  | empty : Reachable []
  | step (env : Env) (req : Req) (db : Store) :
      Reachable db → Reachable (webhook env db req).db

theorem max_seq_nonneg (db : Store) (h : ∀ r ∈ db, 1 ≤ r.seq) :
    0 ≤ max_seq db := by
  cases hdb : db with
  | nil => simp [max_seq]
  | cons t ts =>
    obtain ⟨r, hr, hmax⟩ := max_seq_mem db (by rw [hdb]; simp)
    rw [← hdb, hmax]
    have := h r hr
    omega

theorem next_seq_pos (db : Store) (h : ∀ r ∈ db, 1 ≤ r.seq) :
    1 ≤ next_seq db := by
  have := max_seq_nonneg db h
  unfold next_seq
  omega

theorem codigo_fresh (db : Store) (hinv : StoreInv db) (r : Ticket) (hr : r ∈ db) :
    r.codigo ≠ format_code (next_seq db) := by
  obtain ⟨h1, _⟩ := hinv
  obtain ⟨hseq, hcod⟩ := h1 r hr
  rw [hcod]
  intro heq
  have hnn : (0:Int) ≤ r.seq := by omega
  have hpos : (0:Int) ≤ next_seq db := by
    have := next_seq_pos db (fun r hr => (h1 r hr).1)
    omega
  have := format_code_inj_nonneg _ _ hnn hpos heq
  have := lt_next_seq db r hr
  omega

theorem insert_newRow_ok (db : Store) (hinv : StoreInv db) (k email now : String) :
    insertTicket db (newRow db k email now) = .ok (db ++ [newRow db k email now]) :=
  insertTicket_fresh db _ (fun r hr => codigo_fresh db hinv r hr)

theorem webhook_preserves_inv (env : Env) (db : Store) (req : Req)
    (hinv : StoreInv db) : StoreInv (webhook env db req).db := by
  rcases webhook_db_cases env db req with h | ⟨pid, email, _, hfind, h⟩
  · rw [h]; exact hinv
  · rw [h]
    obtain ⟨h1, h2⟩ := hinv
    constructor
    · intro r hr
      rcases List.mem_append.mp hr with hr | hr
      · exact h1 r hr
      · rcases List.mem_singleton.mp hr with rfl
        refine ⟨next_seq_pos db (fun r hr => (h1 r hr).1), rfl⟩
    · rw [List.pairwise_append]
      refine ⟨h2, List.pairwise_singleton _ _, ?_⟩
      intro a ha b hb
      rcases List.mem_singleton.mp hb with rfl
      intro key hkey
      simp only [newRow]
      intro hk
      rw [Option.some_inj] at hk
      subst hk
      have hnone := List.find?_eq_none.mp hfind a ha
      simp only [decide_eq_true_eq] at hnone
      exact hnone hkey

theorem reachable_inv (db : Store) (h : Reachable db) : StoreInv db := by
  induction h with
  | empty => exact ⟨by simp, List.Pairwise.nil⟩
  | step env req db _ ih => exact webhook_preserves_inv env db req ih

theorem processPayment_found (env : Env) (db : Store) (pid : Json)
    (info : PaymentInfo) (t : Ticket) (happ : isApproved info.status = true)
    (hfound : List.find? (fun r => r.mp_payment_id = some (pyStr pid)) db = some t) :
    processPayment env db pid info = noopResult db := by
  unfold processPayment
  rw [happ]
  simp [hfound]

theorem processPayment_not_approved (env : Env) (db : Store) (pid : Json)
    (info : PaymentInfo) (happ : isApproved info.status = false) :
    processPayment env db pid info = noopResult db := by
  unfold processPayment
  rw [happ]
  simp

theorem processPayment_fresh (env : Env) (db : Store) (pid : Json)
    (info : PaymentInfo) (hinv : StoreInv db) (happ : isApproved info.status = true)
    (hfresh : List.find? (fun r => r.mp_payment_id = some (pyStr pid)) db = none) :
    processPayment env db pid info =
      ⟨some ("OK", 200),
        db ++ [newRow db (pyStr pid)
          (resolveEmail info.payerEmail info.payerEmailAlt) env.now],
        artifactEffects env.artifact (format_code (next_seq db)) ++
          [.insertRow (newRow db (pyStr pid)
            (resolveEmail info.payerEmail info.payerEmailAlt) env.now)] ++
          emailEffects env.emailOk (resolveEmail info.payerEmail info.payerEmailAlt)
            (format_code (next_seq db))⟩ := by
  unfold processPayment
  rw [happ]
  simp only [if_pos rfl, hfresh]
  unfold issueTicket
  rw [insert_newRow_ok db hinv]
  simp

/-! Sample data used by the concrete witnesses. -/

def sampleInfo : PaymentInfo := ⟨some "approved", some "a@b.com", none⟩

def sampleEnv : Env := ⟨true, fun _ => some sampleInfo, none, false, "T0"⟩

def sampleReq : Req :=
  ⟨some (.obj [("type", .str "payment"), ("data", .obj [("id", .num 999)])]), none, none⟩

def sampleTicket : Ticket :=
  ⟨"Lual na Praia", 1, "LUAL0001", "a@b.com", "pago", some "999", "T0"⟩

/-! Claim theorems. -/

/-- C8: `format_code(seq)` returns the configured prefix (default `"LUAL"`)
followed by the decimal rendering of `seq` left-padded with zeros to 4
digits, and does not truncate numbers of more than 4 digits:
`format_code(1) = "LUAL0001"`, `format_code(23) = "LUAL0023"`,
`format_code(10000) = "LUAL10000"`. -/
theorem c8_format_code :
    (format_code 1 = "LUAL0001" ∧ format_code 23 = "LUAL0023" ∧
      format_code 10000 = "LUAL10000" ∧ prefixCode = "LUAL") ∧
    (∀ n : Int, 0 ≤ n →
      format_code n =
        prefixCode ++ String.mk (List.replicate (4 - (decChars n.toNat).length) '0' ++
          decChars n.toNat)) ∧
    (∀ n : Int, 0 ≤ n → 4 ≤ (decChars n.toNat).length →
      format_code n = prefixCode ++ String.mk (decChars n.toNat)) := by
  refine ⟨⟨by decide, by decide, by decide, rfl⟩, ?_, ?_⟩
  · intro n hn
    unfold format_code pyFormat04d padChars
    rw [if_neg (by omega)]
  · intro n hn hlen
    unfold format_code pyFormat04d padChars
    rw [if_neg (by omega), Nat.sub_eq_zero_of_le hlen]
    simp

/-- Witness for C8 at `seq = 10000`: a 5-digit sequence number is rendered
without truncation. -/
theorem c8_format_code_witness :
    (0:Int) ≤ 10000 ∧ 4 ≤ (decChars (Int.toNat 10000)).length ∧
    format_code 10000 = prefixCode ++ String.mk (decChars (Int.toNat 10000)) :=
  ⟨by decide, by decide, c8_format_code.2.2 10000 (by decide) (by decide)⟩

/-- C9: `next_seq` returns `max_seq + 1`, hence 1 on the empty store; it is
strictly above every stored `seq` and equals one plus some stored `seq` when
rows exist; and every row a webhook run appends carries
`seq = max_seq db + 1` computed against the store at the instant of
issuance. -/
theorem c9_next_seq :
    next_seq [] = 1 ∧
    (∀ db : Store, next_seq db = max_seq db + 1) ∧
    (∀ (db : Store) (r : Ticket), r ∈ db → r.seq < next_seq db) ∧
    (∀ db : Store, db ≠ [] → ∃ r ∈ db, next_seq db = r.seq + 1) ∧
    (∀ (env : Env) (db : Store) (req : Req),
      (webhook env db req).db = db ∨
      ∃ t : Ticket, (webhook env db req).db = db ++ [t] ∧ t.seq = max_seq db + 1) := by
  refine ⟨rfl, fun db => rfl, lt_next_seq, ?_, ?_⟩
  · intro db hdb
    obtain ⟨r, hr, h⟩ := max_seq_mem db hdb
    refine ⟨r, hr, ?_⟩
    unfold next_seq
    omega
  · intro env db req
    rcases webhook_db_cases env db req with h | ⟨pid, email, _, _, h⟩
    · left; exact h
    · right; exact ⟨newRow db (pyStr pid) email env.now, h, rfl⟩

/-- Witness for C9 on a one-row store. -/
theorem c9_next_seq_witness :
    sampleTicket.seq < next_seq [sampleTicket] ∧
    (∃ r ∈ [sampleTicket], next_seq [sampleTicket] = r.seq + 1) :=
  ⟨c9_next_seq.2.2.1 [sampleTicket] sampleTicket (by simp),
   c9_next_seq.2.2.2.1 [sampleTicket] (by simp)⟩

/-- C4: redelivering a webhook for a payment id that already has a ticket
row (found by the `mp_payment_id = str(payment_id)` lookup) produces no new
row, leaves the store unchanged, performs no side effects, and still
responds `200 OK`. -/
theorem c4_idempotent_replay (env : Env) (db : Store) (req : Req) (pid : Json)
    (info : PaymentInfo) (t : Ticket)
    (hex : extractPaymentId (effPayload req.body) req.argsTopic req.argsId = some pid)
    (ht : jTruthy pid = true) (hsdk : env.sdkAvailable = true)
    (hgw : env.gateway pid = some info) (happ : isApproved info.status = true)
    (hfound : List.find? (fun r => r.mp_payment_id = some (pyStr pid)) db = some t) :
    webhook env db req = ⟨some ("OK", 200), db, []⟩ := by
  rw [webhook_eq_gateway env db req pid hex ht hsdk, hgw]
  exact processPayment_found env db pid info t happ hfound

/-- Witness for C4: replaying the payment-999 notification against a store
that already holds its ticket. -/
theorem c4_idempotent_replay_witness :
    webhook sampleEnv [sampleTicket] sampleReq =
      ⟨some ("OK", 200), [sampleTicket], []⟩ :=
  c4_idempotent_replay sampleEnv [sampleTicket] sampleReq (.num 999) sampleInfo
    sampleTicket rfl rfl rfl rfl (by decide) (by decide)

/-- C6: for a delivery with a resolved (truthy) payment id, if the gateway
status query raises, or the returned status is anything but "approved"
case-insensitively, the handler inserts nothing, performs no artifact or
email side effects, and responds `200 OK`. -/
theorem c6_non_approved_noop (env : Env) (db : Store) (req : Req) (pid : Json)
    (hex : extractPaymentId (effPayload req.body) req.argsTopic req.argsId = some pid)
    (ht : jTruthy pid = true) (hsdk : env.sdkAvailable = true)
    (hgw : env.gateway pid = none ∨
      ∃ info, env.gateway pid = some info ∧
        ∀ s, info.status = some s → strLower s ≠ "approved") :
    webhook env db req = ⟨some ("OK", 200), db, []⟩ := by
  rw [webhook_eq_gateway env db req pid hex ht hsdk]
  rcases hgw with h | ⟨info, h, hs⟩
  · rw [h]; rfl
  · rw [h]
    refine processPayment_not_approved env db pid info ?_
    unfold isApproved
    cases hst : info.status with
    | none => rfl
    | some s =>
      have hne := hs s hst
      simp [beq_iff_eq, hne]

/-- Witness for C6: a "pending" payment produces no ticket and still gets
`200 OK`. -/
theorem c6_non_approved_noop_witness :
    webhook ⟨true, fun _ => some ⟨some "pending", some "a@b.com", none⟩, none, false, "T0"⟩
      [] sampleReq = ⟨some ("OK", 200), [], []⟩ :=
  c6_non_approved_noop _ [] sampleReq (.num 999) rfl rfl rfl
    (Or.inr ⟨⟨some "pending", some "a@b.com", none⟩, rfl, by
      intro s hs
      injection hs with h
      rw [← h]
      decide⟩)

/-- C3: a webhook for a payment id not yet in the store whose gateway lookup
returns status "approved" inserts exactly one new row, whose buyer email is
`payer.email`, falling back to the `payer_email` field, falling back to the
sentinel placeholder `"sem-email@local"`; whose status is the source literal
`"pago"` (rendered "paid" in the specification's English data model); and
whose payment reference is the string form of the payment id. -/
theorem c3_approved_inserts (env : Env) (db : Store) (req : Req) (pid : Json)
    (info : PaymentInfo)
    (hreach : Reachable db)
    (hex : extractPaymentId (effPayload req.body) req.argsTopic req.argsId = some pid)
    (ht : jTruthy pid = true) (hsdk : env.sdkAvailable = true)
    (hgw : env.gateway pid = some info) (happ : isApproved info.status = true)
    (hfresh : List.find? (fun r => r.mp_payment_id = some (pyStr pid)) db = none) :
    (∃ t : Ticket,
      (webhook env db req).db = db ++ [t] ∧
      (webhook env db req).response = some ("OK", 200) ∧
      t.comprador_email = resolveEmail info.payerEmail info.payerEmailAlt ∧
      t.status = "pago" ∧
      t.mp_payment_id = some (pyStr pid) ∧
      t.seq = next_seq db ∧ t.codigo = format_code (next_seq db)) ∧
    (∀ e, info.payerEmail = some e → e ≠ "" →
      resolveEmail info.payerEmail info.payerEmailAlt = e) ∧
    ((info.payerEmail = none ∨ info.payerEmail = some "") →
      ∀ e, info.payerEmailAlt = some e → e ≠ "" →
        resolveEmail info.payerEmail info.payerEmailAlt = e) ∧
    ((info.payerEmail = none ∨ info.payerEmail = some "") →
      (info.payerEmailAlt = none ∨ info.payerEmailAlt = some "") →
      resolveEmail info.payerEmail info.payerEmailAlt = "sem-email@local") := by
  have hinv := reachable_inv db hreach
  have hw := webhook_eq_process env db req pid info hex ht hsdk hgw
  rw [processPayment_fresh env db pid info hinv happ hfresh] at hw
  refine ⟨⟨newRow db (pyStr pid) (resolveEmail info.payerEmail info.payerEmailAlt)
    env.now, by rw [hw], by rw [hw], rfl, rfl, rfl, rfl, rfl⟩, ?_, ?_, ?_⟩
  · intro e he hne
    rw [he]
    unfold resolveEmail
    simp [hne]
  · rintro (h0 | h0) e he hne <;> rw [h0, he] <;> unfold resolveEmail <;> simp [hne]
  · rintro (h0 | h0) (h1 | h1) <;> rw [h0, h1] <;> rfl

/-- Witness for C3: payment 999 approved with `payer.email = "a@b.com"`
against the empty store. -/
theorem c3_approved_inserts_witness :
    ∃ t : Ticket,
      (webhook sampleEnv [] sampleReq).db = [] ++ [t] ∧
      (webhook sampleEnv [] sampleReq).response = some ("OK", 200) ∧
      t.comprador_email = resolveEmail sampleInfo.payerEmail sampleInfo.payerEmailAlt ∧
      t.status = "pago" ∧
      t.mp_payment_id = some (pyStr (.num 999)) ∧
      t.seq = next_seq [] ∧ t.codigo = format_code (next_seq []) :=
  (c3_approved_inserts sampleEnv [] sampleReq (.num 999) sampleInfo
    Reachable.empty rfl rfl rfl rfl (by decide) rfl).1

/-- C7: artifact and email failures are non-fatal to issuance: for every
best-effort outcome (including failed artifact stamping and failed email
send), approved-payment processing still inserts the ticket row, still
responds `200 OK`, and the row is persisted before the email send is
attempted (everything preceding the insert in the effect trace is an
artifact effect, and the email attempt comes after). -/
theorem c7_best_effort_nonfatal (env : Env) (db : Store) (req : Req)
    (pid : Json) (info : PaymentInfo)
    (hreach : Reachable db)
    (hex : extractPaymentId (effPayload req.body) req.argsTopic req.argsId = some pid)
    (ht : jTruthy pid = true) (hsdk : env.sdkAvailable = true)
    (hgw : env.gateway pid = some info) (happ : isApproved info.status = true)
    (hfresh : List.find? (fun r => r.mp_payment_id = some (pyStr pid)) db = none) :
    ∃ (t : Ticket) (l1 l2 : List Effect),
      (webhook env db req).response = some ("OK", 200) ∧
      (webhook env db req).db = db ++ [t] ∧
      (webhook env db req).effects = l1 ++ Effect.insertRow t :: l2 ∧
      (∀ e ∈ l1, e = Effect.artifactAttempt t.codigo ∨
        e = Effect.artifactWritten t.codigo) ∧
      Effect.emailAttempt t.comprador_email t.codigo ∈ l2 := by
  have hinv := reachable_inv db hreach
  have hw := webhook_eq_process env db req pid info hex ht hsdk hgw
  rw [processPayment_fresh env db pid info hinv happ hfresh] at hw
  refine ⟨newRow db (pyStr pid) (resolveEmail info.payerEmail info.payerEmailAlt)
      env.now,
    artifactEffects env.artifact (format_code (next_seq db)),
    emailEffects env.emailOk (resolveEmail info.payerEmail info.payerEmailAlt)
      (format_code (next_seq db)),
    by rw [hw], by rw [hw], by rw [hw]; simp, ?_, ?_⟩
  · intro e he
    cases ha : env.artifact with
    | none => rw [ha] at he; cases he
    | some b =>
      cases b <;> rw [ha] at he <;> simp only [artifactEffects] at he
      · rcases List.mem_singleton.mp he with rfl
        left; rfl
      · rcases List.mem_cons.mp he with rfl | he2
        · left; rfl
        · rcases List.mem_singleton.mp he2 with rfl
          right; rfl
  · unfold emailEffects
    simp [newRow]

/-- Witness for C7: artifact stamping attempted and failed, email send
failed, against the empty store. -/
theorem c7_best_effort_nonfatal_witness :
    ∃ (t : Ticket) (l1 l2 : List Effect),
      (webhook ⟨true, fun _ => some sampleInfo, some false, false, "T0"⟩
        [] sampleReq).response = some ("OK", 200) ∧
      (webhook ⟨true, fun _ => some sampleInfo, some false, false, "T0"⟩
        [] sampleReq).db = [] ++ [t] ∧
      (webhook ⟨true, fun _ => some sampleInfo, some false, false, "T0"⟩
        [] sampleReq).effects = l1 ++ Effect.insertRow t :: l2 ∧
      (∀ e ∈ l1, e = Effect.artifactAttempt t.codigo ∨
        e = Effect.artifactWritten t.codigo) ∧
      Effect.emailAttempt t.comprador_email t.codigo ∈ l2 :=
  c7_best_effort_nonfatal _ [] sampleReq (.num 999) sampleInfo
    Reachable.empty rfl rfl rfl rfl (by decide) rfl

/-- C2 counterexample: the `ingressos` schema has no uniqueness constraint
on `mp_payment_id` (only `codigo TEXT NOT NULL UNIQUE`), so an insert with a
duplicate non-null payment reference but a fresh code succeeds instead of
failing as the claim states. -/
theorem c2_counterexample :
    insertTicket [sampleTicket]
      ⟨"Lual na Praia", 2, "LUAL0002", "c@d.com", "pago", some "999", "T1"⟩ =
    .ok [sampleTicket,
      ⟨"Lual na Praia", 2, "LUAL0002", "c@d.com", "pago", some "999", "T1"⟩] := rfl

/-- C2 amended: the store's insert fails (only) on `codigo` uniqueness
violations; nevertheless, in every store state reachable through webhook
processing from the empty table, the non-null `mp_payment_id` values are
pairwise distinct — the handler's pre-insert lookup, not a store constraint,
keeps a given external payment id to at most one ticket. -/
theorem c2_payment_ref_unique (db : Store) (hreach : Reachable db) :
    List.Pairwise
      (fun a b => ∀ k, a.mp_payment_id = some k → b.mp_payment_id ≠ some k) db ∧
    (∀ t : Ticket, (∃ r ∈ db, r.codigo = t.codigo) →
      insertTicket db t = .error ()) := by
  refine ⟨(reachable_inv db hreach).2, ?_⟩
  rintro t ⟨r, hr, hc⟩
  unfold insertTicket
  rw [if_pos]
  simp only [List.any_eq_true, decide_eq_true_eq]
  exact ⟨r, hr, hc⟩

/-- Witness for C2 at the one-step reachable store holding the payment-999
ticket. -/
theorem c2_payment_ref_unique_witness :
    List.Pairwise
      (fun a b => ∀ k, a.mp_payment_id = some k → b.mp_payment_id ≠ some k)
      (webhook sampleEnv [] sampleReq).db :=
  (c2_payment_ref_unique _
    (Reachable.step sampleEnv sampleReq [] Reachable.empty)).1

/-- Store state left behind by the §5 sequence race: a row already holds the
code the handler is about to compute (`next_seq = 2`, `codigo = "LUAL0002"`). -/
def raceStore : Store :=
  [⟨"Lual na Praia", 1, "LUAL0002", "x@y.com", "pago", some "1", "T0"⟩]

/-- Notification for a second, distinct payment id. -/
def raceReq : Req :=
  ⟨some (.obj [("type", .str "payment"), ("data", .obj [("id", .num 2)])]), none, none⟩

/-- C1 evidence: the insert (app.py lines 276-281) is not guarded by any
`try`/`except`, so when it raises a uniqueness violation the exception
escapes `webhook()` (`response = none`, which Flask turns into a 500) — the
provider does not receive the `200 OK` acknowledgment the claim and the
specification (sections 5 and 7c) require. -/
theorem c1_insert_error_escapes :
    webhook sampleEnv raceStore raceReq = ⟨none, raceStore, []⟩ ∧
    (webhook sampleEnv raceStore raceReq).response ≠ some ("OK", 200) := by
  constructor
  · rfl
  · decide

/-! Counting rows per payment key, for C10. -/

theorem countKey_append_one (k : String) (db : Store) (t : Ticket) :
    countKey k (db ++ [t]) =
      countKey k db + (if t.mp_payment_id = some k then 1 else 0) := by
  unfold countKey
  rw [List.filter_append, List.length_append]
  congr 1
  by_cases h : t.mp_payment_id = some k
  · simp [h]
  · simp [h]

theorem find?_none_countKey (k : String) (db : Store)
    (h : List.find? (fun r => r.mp_payment_id = some k) db = none) :
    countKey k db = 0 := by
  unfold countKey
  rw [List.length_eq_zero, List.filter_eq_nil_iff]
  intro a ha
  simpa using List.find?_eq_none.mp h a ha

theorem webhook_countKey_le_one (env : Env) (db : Store) (req : Req)
    (k : String) (h : countKey k db ≤ 1) :
    countKey k (webhook env db req).db ≤ 1 := by
  rcases webhook_db_cases env db req with hh | ⟨pid, email, _, hfind, hh⟩
  · rw [hh]; exact h
  · rw [hh, countKey_append_one]
    by_cases hk : pyStr pid = k
    · subst hk
      rw [find?_none_countKey _ _ hfind]
      split <;> omega
    · rw [if_neg]
      · omega
      · simp only [newRow, Option.some_inj]
        exact hk

/-- C10: the idempotency key is `str(payment_id)`: a numeric payment id and
its decimal string render to the same key; one webhook step never raises the
number of rows holding a key above one; hence two deliveries of the same
external id — once as a JSON number, once as the matching string — against a
store without that key leave at most one matching ticket row. -/
theorem c10_str_payment_key :
    (∀ n : Int, pyStr (.num n) = intRepr n ∧ pyStr (.str (intRepr n)) = intRepr n) ∧
    (∀ (env : Env) (db : Store) (req : Req) (k : String),
      countKey k db ≤ 1 → countKey k (webhook env db req).db ≤ 1) ∧
    (∀ (env1 env2 : Env) (db : Store) (req1 req2 : Req) (n : Int),
      countKey (intRepr n) db = 0 →
      countKey (intRepr n) (webhook env2 (webhook env1 db req1).db req2).db ≤ 1) := by
  refine ⟨fun n => ⟨rfl, rfl⟩, webhook_countKey_le_one, ?_⟩
  intro env1 env2 db req1 req2 n h0
  exact webhook_countKey_le_one _ _ _ _ (webhook_countKey_le_one _ _ _ _ (by omega))

/-- Notification for payment 999 delivered with the id as a JSON string. -/
def sampleReqStr : Req :=
  ⟨some (.obj [("type", .str "payment"), ("data", .obj [("id", .str "999")])]), none, none⟩

/-- Witness for C10: payment 999 delivered as the number `999` and then as
the string `"999"` yields at most one matching row. -/
theorem c10_str_payment_key_witness :
    countKey (intRepr 999)
      (webhook sampleEnv (webhook sampleEnv [] sampleReq).db sampleReqStr).db ≤ 1 :=
  c10_str_payment_key.2.2 sampleEnv sampleEnv [] sampleReq sampleReqStr 999 rfl

/-! Extraction policy as the specification words it, for C5. -/

/-- Field access on a JSON object (`none` on a non-object), used to phrase
the extraction policy as the specification does. -/
def objGet (p : Json) (k : String) : Option Json :=
  match p with
  | .obj fs => jLookup fs k
  | _ => none

/-- The value at `payload.data.id`, present when `payload.data` is an object
carrying `id`. -/
def dataId (p : Json) : Option Json :=
  match objGet p "data" with
  | some d => objGet d "id"
  | none => none

/-- Whether an optional JSON value is the string `k`. -/
def optIsStr (o : Option Json) (k : String) : Bool :=
  match o with
  | some v => jIsStr v k
  | none => false

/-- Extraction policy as stated in section 4.3 of the specification: four
rules in order of precedence — (1) `type == "payment"` with `data.id`;
(2) `topic == "payment"` with top-level `id`; (3) `data.id` present;
(4) query parameters `topic=payment` and non-empty `id` — else no payment
id. -/
def extractSpec (p : Json) (aT aI : Option String) : Option Json :=
  if optIsStr (objGet p "type") "payment" && (dataId p).isSome then dataId p
  else if optIsStr (objGet p "topic") "payment" && (objGet p "id").isSome then
    objGet p "id"
  else if (dataId p).isSome then dataId p
  else if aT = some "payment" ∧ optStrTruthy aI then some (.str (aI.getD ""))
  else none

theorem webhook_no_pid (env : Env) (db : Store) (req : Req)
    (h : extractPaymentId (effPayload req.body) req.argsTopic req.argsId = none) :
    webhook env db req = ⟨some ("OK", 200), db, []⟩ := by
  unfold webhook
  rw [h]
  rfl

/-- C5: the handler resolves the payment id by exactly the specification's
four-rule precedence — (1) `type == "payment"` with `data.id`; (2)
`topic == "payment"` with top-level `id`; (3) `data.id` present; (4) query
parameters `topic=payment` and (non-empty) `id` — and when no rule matches
(such as the empty body `\x7b\x7d`) it responds success with no store change and no
side effects. Stated for payloads that are JSON objects whose `data` field,
when present, is an object; on any other `data` the chain raises and the
modelled `except` also yields no payment id. -/
theorem c5_extraction_precedence (fs : List (String × Json)) (aT aI : Option String)
    (hwf : ∀ d, jLookup fs "data" = some d → jIsObj d = true) :
    extractPaymentId (.obj fs) aT aI = extractSpec (.obj fs) aT aI ∧
    (∀ (env : Env) (db : Store),
      extractSpec (.obj fs) aT aI = none →
      webhook env db ⟨some (.obj fs), aT, aI⟩ = ⟨some ("OK", 200), db, []⟩) := by
  have heq : extractPaymentId (.obj fs) aT aI = extractSpec (.obj fs) aT aI := by
    unfold extractPaymentId extractExc extractSpec dataId optIsStr objGet
    simp only [jContains, jGet, bind, Except.bind, pure, Except.pure]
    rcases hd : jLookup fs "data" with _ | d
    · rcases hty : jLookup fs "type" with _ | tv <;>
      rcases htp : jLookup fs "topic" with _ | w <;>
      rcases hid : jLookup fs "id" with _ | j <;>
      simp_all
      all_goals try (cases hb2 : jIsStr w "payment" <;> simp_all)
      all_goals (by_cases hq : aT = some "payment" ∧ optStrTruthy aI = true)
      all_goals try (simp only [if_pos hq])
      all_goals try (simp only [if_neg hq])
    · have hobj := hwf d hd
      rcases d with _ | b | n | s | xs | gs <;> simp_all [jIsObj]
      rcases hgid : jLookup gs "id" with _ | i <;>
      rcases hty : jLookup fs "type" with _ | tv <;>
      rcases htp : jLookup fs "topic" with _ | w <;>
      rcases hid : jLookup fs "id" with _ | j <;>
      simp_all
      all_goals try (cases hb1 : jIsStr tv "payment" <;> simp_all)
      all_goals try (cases hb2 : jIsStr w "payment" <;> simp_all)
      all_goals (by_cases hq : aT = some "payment" ∧ optStrTruthy aI = true)
      all_goals try (simp only [if_pos hq])
      all_goals try (simp only [if_neg hq])
  refine ⟨heq, ?_⟩
  intro env db hnone
  have heff : effPayload (some (Json.obj fs)) = Json.obj fs := by
    cases fs with
    | nil => rfl
    | cons kv rest => rfl
  have hnone2 : extractPaymentId (effPayload (some (Json.obj fs))) aT aI = none := by
    rw [heff, heq, hnone]
  exact webhook_no_pid env db ⟨some (.obj fs), aT, aI⟩ hnone2

/-- Witness for C5: the empty JSON body with no query parameters resolves no
payment id and the webhook acknowledges without touching the store. -/
theorem c5_extraction_precedence_witness :
    extractPaymentId (.obj []) none none = extractSpec (.obj []) none none ∧
    webhook sampleEnv [] ⟨some (.obj []), none, none⟩ =
      ⟨some ("OK", 200), [], []⟩ := by
  have h := c5_extraction_precedence [] none none (by intro d hd; cases hd)
  exact ⟨h.1, h.2 sampleEnv [] rfl⟩

end TicketApp
